import Mathlib

/-!
# Verification of the dataset-preparation core of the healthcare dashboard

Shallow embedding of `src/streamlit_app.py`'s reproducible data logic:

* `load_data` (lines 10-17): parse the two date columns with
  `errors='coerce'` (an unparseable cell becomes the missing marker) and
  derive `Length of Stay` as the day difference of the two dates.
* the filter block (lines 34-38): an optional gender equality filter
  followed by an optional medical-condition equality filter.
* the Data Overview sidebar (lines 44-46): record count and arithmetic
  means of `Length of Stay` and `Billing Amount` over non-missing cells.
* `gender_condition` (line 70): `groupby(['Medical Condition','Gender']).size()`.
* `corr` (line 145): Pearson correlation matrix over
  `['Age', 'Billing Amount', 'Length of Stay']` with pairwise-complete
  observations.

Missing values (pandas `NaT` / `NaN`) are modelled as `Option.none`;
numeric cells are exact rationals, correlation values exact reals.
-/

namespace Healthcare

/-! ## Date parsing

`pd.to_datetime(col, errors='coerce')` turns each cell into either a valid
calendar date or the missing marker `NaT`.  We model a date as its rata-die
day number (an integer, so that subtracting two dates gives the signed day
count), and model the parse of an ISO `YYYY-MM-DD` cell, coercing every
malformed cell to `none`. -/

/-- Gregorian leap-year test. -/
def isLeap (y : Nat) : Bool :=
  (y % 4 == 0 && y % 100 != 0) || (y % 400 == 0)

/-- Number of days in month `m` of year `y` (months numbered 1..12). -/
def daysInMonth (y m : Nat) : Nat :=
  if m == 2 then (if isLeap y then 29 else 28)
  else if m == 4 || m == 6 || m == 9 || m == 11 then 30
  else 31

/-- Days in year `y` strictly before month `m`. -/
def daysBeforeMonth (y m : Nat) : Nat :=
  (List.range (m - 1)).foldl (fun acc i => acc + daysInMonth y (i + 1)) 0

/-- Rata-die day number of the date `y-m-d` (day 1 is 0001-01-01). -/
def rataDie (y m d : Nat) : Nat :=
  365 * (y - 1) + (y - 1) / 4 - (y - 1) / 100 + (y - 1) / 400
    + daysBeforeMonth y m + d

/-- Split a character list at every dash. -/
def splitDash : List Char → List (List Char)
  | [] => [[]]
  | c :: rest =>
    let r := splitDash rest
    if c = '-' then [] :: r
    else
      match r with
      | [] => [[c]]
      | h :: t => (c :: h) :: t

/-- Numeric value of a digit string. -/
def digitsToNat (cs : List Char) : Nat :=
  cs.foldl (fun acc c => acc * 10 + (c.toNat - 48)) 0

/-- Parse one `YYYY-MM-DD` cell to a day number, coercing failures to
`none` exactly as `errors='coerce'` does. -/
def parseDate (s : String) : Option Int :=
  match splitDash s.toList with
  | [ys, ms, ds] =>
    if ys.length == 4 && ms.length == 2 && ds.length == 2
        && ys.all Char.isDigit && ms.all Char.isDigit && ds.all Char.isDigit then
      let y := digitsToNat ys
      let m := digitsToNat ms
      let d := digitsToNat ds
      if 1 ≤ y && 1 ≤ m && m ≤ 12 && 1 ≤ d && d ≤ daysInMonth y m then
        some (rataDie y m d : Int)
      else none
    else none
  | _ => none

/-! ## Records and `load_data` -/

/-- One CSV row as read, before date conversion: the two date columns are
still raw strings and there is no `Length of Stay` column yet. -/
structure RawRecord where
  gender : String
  condition : String
  hospital : String
  age : Int
  billing : Option ℚ
  admissionStr : String
  dischargeStr : String
  deriving DecidableEq

/-- One row after `load_data`: dates parsed (or missing) and
`Length of Stay` derived. -/
structure Record where
  gender : String
  condition : String
  hospital : String
  age : Int
  billing : Option ℚ
  admission : Option Int
  discharge : Option Int
  lengthOfStay : Option Int
  deriving DecidableEq

/-- Date conversion and `Length of Stay` derivation of `load_data`
(lines 13-16): both date columns go through the coercing parse, and
`(data['Discharge Date'] - data['Date of Admission']).dt.days` is the
signed day difference, missing as soon as either date is missing. -/
def loadRecord (r : RawRecord) : Record :=
  let adm := parseDate r.admissionStr
  let dis := parseDate r.dischargeStr
  { gender := r.gender
    condition := r.condition
    hospital := r.hospital
    age := r.age
    billing := r.billing
    admission := adm
    discharge := dis
    lengthOfStay :=
      match dis, adm with
      | some d, some a => some (d - a)
      | _, _ => none }

/-- `load_data` applied to the whole CSV. -/
def loadData (rows : List RawRecord) : List Record :=
  rows.map loadRecord

/-! ## The sidebar filter block (lines 34-38)

`selected_gender` / `selected_condition` are either `'All'` or a concrete
value; we model the selection as an `Option String`, `none` standing for
`'All'`.  The code copies `df` and then applies up to two boolean-mask
selections in sequence. -/

/-- `filtered_df = filtered_df[filtered_df['Gender'] == selected_gender]`
when a gender is selected, the unchanged frame otherwise. -/
def applyGenderFilter (d : List Record) (g : Option String) : List Record :=
  match g with
  | none => d
  | some s => d.filter fun r => r.gender == s

/-- `filtered_df = filtered_df[filtered_df['Medical Condition'] == selected_condition]`
when a condition is selected, the unchanged frame otherwise. -/
def applyConditionFilter (d : List Record) (c : Option String) : List Record :=
  match c with
  | none => d
  | some s => d.filter fun r => r.condition == s

/-- The whole filter block: `df.copy()`, then the gender mask, then the
condition mask. -/
def filteredDf (d : List Record) (g c : Option String) : List Record :=
  applyConditionFilter (applyGenderFilter d g) c

/-- A record passes both selections (a `none` selection matches every
record). -/
def matchesBoth (g c : Option String) (r : Record) : Bool :=
  (match g with | none => true | some s => r.gender == s)
    && (match c with | none => true | some s => r.condition == s)

/-! ## The Data Overview sidebar (lines 44-46) -/

/-- Arithmetic mean of the non-missing cells of a column, `none` when
there is no non-missing cell — pandas' `Series.mean()`, whose result on an
empty or all-`NaN` column is `NaN`. -/
def columnMean (xs : List (Option ℚ)) : Option ℚ :=
  let vs := xs.filterMap id
  if vs.length = 0 then none else some (vs.sum / vs.length)

/-- The three Data Overview numbers. -/
structure Summary where
  count : Nat
  meanLengthOfStay : Option ℚ
  meanBillingAmount : Option ℚ
  deriving DecidableEq

/-- `len(filtered_df)`, `filtered_df['Length of Stay'].mean()` and
`filtered_df['Billing Amount'].mean()`. -/
def summarize (d : List Record) : Summary :=
  { count := d.length
    meanLengthOfStay := columnMean (d.map fun r => r.lengthOfStay.map fun n => (n : ℚ))
    meanBillingAmount := columnMean (d.map fun r => r.billing) }

/-! ## `gender_condition` (line 70)

`filtered_df.groupby(['Medical Condition', 'Gender']).size()` maps each
(condition, gender) pair that occurs in the data to the number of its
rows; a pair with no rows has no entry (`.unstack().fillna(0)` afterwards
is the chart-side rendering of absent combinations as zero, outside this
mapping). -/

/-- The grouping key of a row. -/
def groupKey (r : Record) : String × String :=
  (r.condition, r.gender)

/-- Number of rows of `d` with grouping key `k`. -/
def keyCount (d : List Record) (k : String × String) : Nat :=
  d.countP fun r => decide (groupKey r = k)

/-- `groupby(['Medical Condition','Gender']).size()` as an association
list: one entry per occurring key, carrying its row count. -/
def groupCount (d : List Record) : List ((String × String) × Nat) :=
  ((d.map groupKey).dedup).map fun k => (k, keyCount d k)

/-- Look a key up in the association list produced by `groupCount`. -/
def lookupKey (m : List ((String × String) × Nat)) (k : String × String) :
    Option Nat :=
  (m.find? fun p => decide (p.1 = k)).map Prod.snd

/-! ## The correlation matrix (line 145)

`filtered_df[['Age', 'Billing Amount', 'Length of Stay']].corr()` computes
the Pearson coefficient for each pair of columns over the rows where both
cells are non-missing, and `NaN` where the divisor `sqrt(ssx) * sqrt(ssy)`
vanishes (pandas `nancorr`). -/

/-- The numeric columns handed to `.corr()`. -/
inductive NumericKey where
  | age
  | billing
  | lengthOfStay
  deriving DecidableEq

/-- Read one numeric column out of a record (`Age` is always present,
the other two may be missing). -/
def col (k : NumericKey) (r : Record) : Option ℚ :=
  match k with
  | NumericKey.age => some (r.age : ℚ)
  | NumericKey.billing => r.billing
  | NumericKey.lengthOfStay => r.lengthOfStay.map fun n => (n : ℚ)

/-- Pairwise-complete observations: the rows where both columns are
non-missing, in row order. -/
def completePairs (xs ys : List (Option ℚ)) : List (ℚ × ℚ) :=
  (xs.zip ys).filterMap fun p =>
    match p with
    | (some a, some b) => some (a, b)
    | _ => none

/-- Mean of the first components (0 on the empty list, which is only ever
used where the sums of squares vanish anyway). -/
def meanFst (l : List (ℚ × ℚ)) : ℚ :=
  (l.map Prod.fst).sum / l.length

/-- Mean of the second components. -/
def meanSnd (l : List (ℚ × ℚ)) : ℚ :=
  (l.map Prod.snd).sum / l.length

/-- Sum of squared deviations of the first column. -/
def ssxx (l : List (ℚ × ℚ)) : ℚ :=
  (l.map fun p => (p.1 - meanFst l) ^ 2).sum

/-- Sum of squared deviations of the second column. -/
def ssyy (l : List (ℚ × ℚ)) : ℚ :=
  (l.map fun p => (p.2 - meanSnd l) ^ 2).sum

/-- Sum of products of deviations. -/
def ssxy (l : List (ℚ × ℚ)) : ℚ :=
  (l.map fun p => (p.1 - meanFst l) * (p.2 - meanSnd l)).sum

/-- Pearson coefficient of a list of complete observation pairs:
`cov / sqrt(ssx * ssy)`, missing (`NaN`) when the divisor vanishes —
which covers fewer than two observations and constant columns. -/
noncomputable def pearson (l : List (ℚ × ℚ)) : Option ℝ :=
  if ssxx l * ssyy l = 0 then none
  else some ((ssxy l : ℝ) / Real.sqrt ((ssxx l : ℝ) * (ssyy l : ℝ)))

/-- One entry of `.corr()`: the Pearson coefficient of two columns over
their pairwise-complete observations. -/
noncomputable def corrEntry (d : List Record) (a b : NumericKey) : Option ℝ :=
  pearson (completePairs (d.map (col a)) (d.map (col b)))

/-- The correlation matrix over an ordered list of numeric keys. -/
noncomputable def corrMatrix (d : List Record) (ks : List NumericKey)
    (i j : Fin ks.length) : Option ℝ :=
  corrEntry d (ks.get i) (ks.get j)

/-! ## Session state (lines 21 and 34)

`df` is loaded once and the filter block recomputes `filtered_df` from it
on every selection change; nothing ever assigns into `df`. -/

/-- The two dataframes the app keeps. -/
structure AppState where
  df : List Record
  filtered : List Record
  deriving DecidableEq

/-- One run of the filter block for a pair of sidebar selections:
`filtered_df` is rebuilt from `df.copy()`; `df` is only read. -/
def selectFilters (s : AppState) (g c : Option String) : AppState :=
  { df := s.df, filtered := filteredDf s.df g c }

/-! ## Concrete rows used to evaluate the embedding -/

/-- Raw row with admission 2020-01-01 and discharge 2020-01-05. -/
def exRawFirst : RawRecord :=
  { gender := "Female", condition := "Diabetes", hospital := "General"
    age := 30, billing := some 100
    admissionStr := "2020-01-01", dischargeStr := "2020-01-05" }

/-- Raw row with admission 2020-02-01 and an unparseable discharge. -/
def exRawSecond : RawRecord :=
  { gender := "Male", condition := "Cancer", hospital := "General"
    age := 47, billing := some 200
    admissionStr := "2020-02-01", dischargeStr := "not a date" }

/-- The two-row CSV of the spec's `load`-then-`summarize` example. -/
def exRawRows : List RawRecord :=
  [exRawFirst, exRawSecond]

/-- Raw row whose discharge precedes its admission. -/
def exRawSwapped : RawRecord :=
  { gender := "Female", condition := "Diabetes", hospital := "General"
    age := 30, billing := some 100
    admissionStr := "2020-01-05", dischargeStr := "2020-01-01" }

/-- A loaded row whose `Length of Stay` and `Billing Amount` are both
missing. -/
def allMissingRecord : Record :=
  { gender := "Male", condition := "Cancer", hospital := "General"
    age := 40, billing := none
    admission := none, discharge := none, lengthOfStay := none }

/-- One loaded Male/Diabetes row, hospitals kept distinct. -/
def maleDiabetes (h : String) : Record :=
  { gender := "Male", condition := "Diabetes", hospital := h
    age := 50, billing := some 120
    admission := some 737425, discharge := some 737429, lengthOfStay := some 4 }

/-- Three Male/Diabetes rows and no Female/Diabetes row: the spec's
`group_count` example dataset. -/
def diabetesRows : List Record :=
  [maleDiabetes "A", maleDiabetes "B", maleDiabetes "C"]

/-- Two rows with the same `Age`: a constant numeric column. -/
def constAgeRows : List Record :=
  [maleDiabetes "A",
   { gender := "Female", condition := "Asthma", hospital := "B"
     age := 50, billing := some 80
     admission := some 737425, discharge := some 737430, lengthOfStay := some 5 }]

/-- Two rows with distinct `Age` values: a non-constant numeric column. -/
def varAgeRows : List Record :=
  [maleDiabetes "A",
   { gender := "Female", condition := "Asthma", hospital := "B"
     age := 60, billing := some 80
     admission := some 737425, discharge := some 737430, lengthOfStay := some 5 }]

/-! ## Helper lemmas -/

/-- The filter block is one `filter` by the conjunction of the two
selections. -/
lemma filteredDf_eq_filter (d : List Record) (g c : Option String) :
    filteredDf d g c = d.filter fun r => matchesBoth g c r := by
  cases g <;> cases c <;>
    simp [filteredDf, applyGenderFilter, applyConditionFilter, matchesBoth,
      List.filter_filter, Bool.and_comm]

/-- A column whose cells are all missing has a missing mean. -/
lemma columnMean_eq_none {xs : List (Option ℚ)} (h : ∀ x ∈ xs, x = none) :
    columnMean xs = none := by
  have hnil : xs.filterMap id = [] := List.filterMap_eq_nil_iff.mpr (by simpa using h)
  simp [columnMean, hnil]

/-- Looking a key up in a keyed map of a list of keys. -/
lemma find_map_key (l : List (String × String)) (f : String × String → Nat)
    (k : String × String) :
    ((l.map fun a => (a, f a)).find? fun p => decide (p.1 = k)).map Prod.snd =
      if k ∈ l then some (f k) else none := by
  induction l with
  | nil => simp
  | cons a t ih =>
    by_cases hak : a = k
    · subst hak
      rw [List.map_cons, List.find?_cons_of_pos _ (by simp)]
      simp
    · rw [List.map_cons, List.find?_cons_of_neg _ (by simp [hak]), ih]
      have hka : ¬k = a := fun h => hak h.symm
      simp [List.mem_cons, hka]

/-- A grouping key has rows exactly when it occurs among the deduplicated
keys. -/
lemma keyCount_pos_iff (d : List Record) (k : String × String) :
    0 < keyCount d k ↔ k ∈ (d.map groupKey).dedup := by
  simp [keyCount, List.countP_pos_iff, List.mem_dedup, List.mem_map]

/-- Pairwise-complete observations of the columns in the other order. -/
lemma completePairs_swap (xs ys : List (Option ℚ)) :
    completePairs ys xs = (completePairs xs ys).map Prod.swap := by
  induction xs generalizing ys with
  | nil => cases ys <;> simp [completePairs]
  | cons x xt ih =>
    cases ys with
    | nil => simp [completePairs]
    | cons y yt =>
      cases x <;> cases y <;>
        simpa [completePairs] using ih yt

/-- Pairing a column with itself keeps its non-missing cells, doubled. -/
lemma completePairs_self (xs : List (Option ℚ)) :
    completePairs xs xs = (xs.filterMap id).map fun a => (a, a) := by
  induction xs with
  | nil => rfl
  | cons x t ih =>
    cases x with
    | none =>
      show completePairs t t = ((none :: t).filterMap id).map fun a => (a, a)
      simpa using ih
    | some a =>
      show (a, a) :: completePairs t t = _
      simp [ih]

lemma meanFst_map_swap (l : List (ℚ × ℚ)) :
    meanFst (l.map Prod.swap) = meanSnd l := by
  simp [meanFst, meanSnd, List.map_map, Function.comp_def]

lemma meanSnd_map_swap (l : List (ℚ × ℚ)) :
    meanSnd (l.map Prod.swap) = meanFst l := by
  simp [meanFst, meanSnd, List.map_map, Function.comp_def]

lemma ssxx_map_swap (l : List (ℚ × ℚ)) :
    ssxx (l.map Prod.swap) = ssyy l := by
  simp [ssxx, ssyy, List.map_map, Function.comp_def, meanFst_map_swap]

lemma ssyy_map_swap (l : List (ℚ × ℚ)) :
    ssyy (l.map Prod.swap) = ssxx l := by
  simp [ssxx, ssyy, List.map_map, Function.comp_def, meanSnd_map_swap]

lemma ssxy_map_swap (l : List (ℚ × ℚ)) :
    ssxy (l.map Prod.swap) = ssxy l := by
  simp [ssxy, List.map_map, Function.comp_def, meanFst_map_swap, meanSnd_map_swap,
    mul_comm]

/-- The Pearson coefficient does not depend on the order of the columns. -/
lemma pearson_map_swap (l : List (ℚ × ℚ)) :
    pearson (l.map Prod.swap) = pearson l := by
  simp [pearson, ssxx_map_swap, ssyy_map_swap, ssxy_map_swap, mul_comm]

lemma meanSnd_diag (vs : List ℚ) :
    meanSnd (vs.map fun a => (a, a)) = meanFst (vs.map fun a => (a, a)) := by
  simp [meanFst, meanSnd, List.map_map, Function.comp_def]

lemma ssyy_diag (vs : List ℚ) :
    ssyy (vs.map fun a => (a, a)) = ssxx (vs.map fun a => (a, a)) := by
  simp [ssxx, ssyy, meanSnd_diag, List.map_map, Function.comp_def]

lemma ssxy_diag (vs : List ℚ) :
    ssxy (vs.map fun a => (a, a)) = ssxx (vs.map fun a => (a, a)) := by
  simp [ssxy, ssxx, meanSnd_diag, List.map_map, Function.comp_def, pow_two]

/-- A sum of squared deviations is nonnegative. -/
lemma ssxx_nonneg (l : List (ℚ × ℚ)) : 0 ≤ ssxx l := by
  apply List.sum_nonneg
  intro x hx
  obtain ⟨p, _, rfl⟩ := List.mem_map.mp hx
  exact sq_nonneg _

/-! ## Claim theorems -/

/-- Claim C1: for every record whose two date cells both parse, the
derived `Length of Stay` is exactly the signed day difference discharge
minus admission, with no clamping. -/
theorem lengthOfStay_eq_day_diff (r : RawRecord) (a d : Int)
    (ha : parseDate r.admissionStr = some a)
    (hd : parseDate r.dischargeStr = some d) :
    (loadRecord r).lengthOfStay = some (d - a) := by
  simp [loadRecord, ha, hd]

/-- Witness for C1: both on a record staying four days and on a record
whose discharge precedes its admission (negative stay, not clamped). -/
theorem lengthOfStay_eq_day_diff_witness :
    (loadRecord exRawFirst).lengthOfStay = some (737429 - 737425) ∧
    (loadRecord exRawSwapped).lengthOfStay = some (737425 - 737429) :=
  ⟨lengthOfStay_eq_day_diff exRawFirst 737425 737429 (by decide) (by decide),
   lengthOfStay_eq_day_diff exRawSwapped 737429 737425 (by decide) (by decide)⟩

/-- Claim C3: when either date cell fails to parse the load still
produces the record, each date field holds exactly the (possibly missing)
parse result, and `Length of Stay` is missing. -/
theorem unparsed_date_missing (r : RawRecord)
    (h : parseDate r.admissionStr = none ∨ parseDate r.dischargeStr = none) :
    (loadRecord r).admission = parseDate r.admissionStr ∧
    (loadRecord r).discharge = parseDate r.dischargeStr ∧
    (loadRecord r).lengthOfStay = none := by
  refine ⟨rfl, rfl, ?_⟩
  rcases h with h | h
  · cases hd : parseDate r.dischargeStr <;> simp [loadRecord, h, hd]
  · cases ha : parseDate r.admissionStr <;> simp [loadRecord, h, ha]

/-- Witness for C3: the record with the unparseable discharge cell. -/
theorem unparsed_date_missing_witness :
    (loadRecord exRawSecond).admission = parseDate exRawSecond.admissionStr ∧
    (loadRecord exRawSecond).discharge = parseDate exRawSecond.dischargeStr ∧
    (loadRecord exRawSecond).lengthOfStay = none :=
  unparsed_date_missing exRawSecond (Or.inr (by decide))

/-- Claim C4: `summarize` is total; on the empty dataset it returns
count 0 and missing (`NaN`) means, and on an all-missing dataset it
returns the full count and missing means. -/
theorem summarize_total_on_missing :
    summarize [] = { count := 0, meanLengthOfStay := none, meanBillingAmount := none } ∧
    ∀ d : List Record, (∀ r ∈ d, r.lengthOfStay = none ∧ r.billing = none) →
      summarize d =
        { count := d.length, meanLengthOfStay := none, meanBillingAmount := none } := by
  refine ⟨rfl, fun d h => ?_⟩
  have h1 : columnMean (d.map fun r => r.lengthOfStay.map fun n => (n : ℚ)) = none := by
    apply columnMean_eq_none
    intro x hx
    obtain ⟨r, hr, rfl⟩ := List.mem_map.mp hx
    simp [(h r hr).1]
  have h2 : columnMean (d.map fun r => r.billing) = none := by
    apply columnMean_eq_none
    intro x hx
    obtain ⟨r, hr, rfl⟩ := List.mem_map.mp hx
    exact (h r hr).2
  simp only [summarize]
  rw [h1, h2]

/-- Witness for C4: a one-record dataset whose stay and billing cells are
both missing. -/
theorem summarize_total_on_missing_witness :
    summarize [allMissingRecord] =
      { count := 1, meanLengthOfStay := none, meanBillingAmount := none } :=
  summarize_total_on_missing.2 [allMissingRecord] (by decide)

/-- Claim C5: the filter block returns exactly the order-preserving
subsequence of records passing both selections, and with both selections
on `'All'` it returns the input unchanged. -/
theorem filter_characterization :
    (∀ (d : List Record) (g c : Option String),
        filteredDf d g c = (d.filter fun r => matchesBoth g c r) ∧
          List.Sublist (filteredDf d g c) d) ∧
    ∀ d : List Record, filteredDf d none none = d := by
  refine ⟨fun d g c => ⟨filteredDf_eq_filter d g c, ?_⟩, fun d => rfl⟩
  rw [filteredDf_eq_filter]
  exact List.filter_sublist d

/-- Claim C6: the filter block is idempotent. -/
theorem filter_idempotent (d : List Record) (g c : Option String) :
    filteredDf (filteredDf d g c) g c = filteredDf d g c := by
  simp [filteredDf_eq_filter, List.filter_filter, Bool.and_self]

/-- Claim C10: the gender mask and the condition mask commute, and either
order equals the filter block itself. -/
theorem filters_commute (d : List Record) (g c : Option String) :
    applyConditionFilter (applyGenderFilter d g) c =
      applyGenderFilter (applyConditionFilter d c) g ∧
    applyConditionFilter (applyGenderFilter d g) c = filteredDf d g c := by
  refine ⟨?_, rfl⟩
  cases g <;> cases c <;>
    simp [applyGenderFilter, applyConditionFilter, List.filter_filter,
      Bool.and_comm]

/-- Claim C9: `df` is never mutated: any sequence of filter-selection
runs leaves the loaded dataset identical, and each run only derives a
view of it. -/
theorem df_immutable (s : AppState)
    (ops : List (Option String × Option String)) :
    (ops.foldl (fun st gc => selectFilters st gc.1 gc.2) s).df = s.df ∧
    ∀ g c : Option String,
      (selectFilters s g c).df = s.df ∧
      (selectFilters s g c).filtered = filteredDf s.df g c := by
  refine ⟨?_, fun g c => ⟨rfl, rfl⟩⟩
  induction ops generalizing s with
  | nil => rfl
  | cons op t ih => simpa [selectFilters] using ih (selectFilters s op.1 op.2)

/-- Claim C2: `groupby(['Medical Condition','Gender']).size()` maps a key
to its positive row count and has no entry for a key with zero rows; on
three Male/Diabetes rows and no Female/Diabetes row it is exactly
`{("Diabetes","Male"): 3}`. -/
theorem group_count_spec :
    (∀ (d : List Record) (k : String × String),
        lookupKey (groupCount d) k =
          if keyCount d k = 0 then none else some (keyCount d k)) ∧
    groupCount diabetesRows = [(("Diabetes", "Male"), 3)] ∧
    lookupKey (groupCount diabetesRows) ("Diabetes", "Female") = none := by
  refine ⟨fun d k => ?_, by decide, by decide⟩
  rw [lookupKey, groupCount, find_map_key]
  by_cases h0 : keyCount d k = 0
  · have : ¬k ∈ (d.map groupKey).dedup := fun hm =>
      ((keyCount_pos_iff d k).mpr hm).ne' h0
    simp [h0, this]
  · have : k ∈ (d.map groupKey).dedup :=
      (keyCount_pos_iff d k).mp (Nat.pos_of_ne_zero h0)
    simp [h0, this]

/-- Claim C8: loading the two-row example (one four-day stay, one
unparseable discharge) and summarizing yields count 2 — all records are
counted — and mean `Length of Stay` 4: only the parsed record
contributes. -/
theorem load_summarize_example :
    (summarize (loadData exRawRows)).count = 2 ∧
    (summarize (loadData exRawRows)).meanLengthOfStay = some 4 := by
  have h1 : parseDate "2020-01-01" = some 737425 := by decide
  have h2 : parseDate "2020-01-05" = some 737429 := by decide
  have h3 : parseDate "2020-02-01" = some 737456 := by decide
  have h4 : parseDate "not a date" = none := by decide
  refine ⟨by simp [summarize, loadData, exRawRows], ?_⟩
  simp [summarize, loadData, loadRecord, exRawRows, exRawFirst, exRawSecond,
    columnMean, h1, h2, h3, h4]

/-- Counterexample to C7 as stated: on a dataset whose `Age` column is
constant, the diagonal correlation entry for `Age` is missing (`NaN`),
not 1.0. -/
theorem corr_diag_counterexample :
    corrEntry constAgeRows NumericKey.age NumericKey.age = none ∧
    corrEntry constAgeRows NumericKey.age NumericKey.age ≠ some 1 := by
  have hc : completePairs (constAgeRows.map (col NumericKey.age))
      (constAgeRows.map (col NumericKey.age)) = [(50, 50), (50, 50)] := by
    simp [completePairs, constAgeRows, maleDiabetes, col]
  have h0 : ssxx [((50 : ℚ), (50 : ℚ)), (50, 50)] = 0 := by
    norm_num [ssxx, meanFst]
  have h1 : ssyy [((50 : ℚ), (50 : ℚ)), (50, 50)] = 0 := by
    norm_num [ssyy, meanSnd]
  have hn : corrEntry constAgeRows NumericKey.age NumericKey.age = none := by
    rw [corrEntry, hc, pearson, if_pos (by rw [h0, h1]; ring)]
  exact ⟨hn, by rw [hn]; exact fun h => Option.noConfusion h⟩

/-- Claim C7 as amended: the correlation matrix is symmetric at every
pair of indices; a diagonal entry is 1.0 whenever the sum of squared
deviations of that column's pairwise-complete observations is nonzero,
and missing (`NaN`) when it is zero. -/
theorem corr_symmetric_diag :
    (∀ (d : List Record) (ks : List NumericKey) (i j : Fin ks.length),
        corrMatrix d ks i j = corrMatrix d ks j i) ∧
    (∀ (d : List Record) (ks : List NumericKey) (i : Fin ks.length),
        ssxx (completePairs (d.map (col (ks.get i))) (d.map (col (ks.get i)))) ≠ 0 →
        corrMatrix d ks i i = some 1) ∧
    (∀ (d : List Record) (ks : List NumericKey) (i : Fin ks.length),
        ssxx (completePairs (d.map (col (ks.get i))) (d.map (col (ks.get i)))) = 0 →
        corrMatrix d ks i i = none) := by
  refine ⟨fun d ks i j => ?_, fun d ks i h => ?_, fun d ks i h => ?_⟩
  · show corrEntry d (ks.get i) (ks.get j) = corrEntry d (ks.get j) (ks.get i)
    rw [corrEntry, corrEntry,
      completePairs_swap (d.map (col (ks.get j))) (d.map (col (ks.get i))),
      pearson_map_swap]
  · show corrEntry d (ks.get i) (ks.get i) = some 1
    rw [completePairs_self] at h
    rw [corrEntry, completePairs_self]
    set vs := (d.map (col (ks.get i))).filterMap id with hvs
    have h2 : ssyy (vs.map fun a => (a, a)) = ssxx (vs.map fun a => (a, a)) :=
      ssyy_diag vs
    have h3 : ssxy (vs.map fun a => (a, a)) = ssxx (vs.map fun a => (a, a)) :=
      ssxy_diag vs
    have hnn : (0 : ℝ) ≤ (ssxx (vs.map fun a => (a, a)) : ℝ) := by
      exact_mod_cast ssxx_nonneg (vs.map fun a => (a, a))
    have hne : ((ssxx (vs.map fun a => (a, a)) : ℚ) : ℝ) ≠ 0 := by
      exact_mod_cast h
    rw [pearson, h2, h3, if_neg (mul_ne_zero h h)]
    rw [Real.sqrt_mul_self hnn, div_self hne]
  · show corrEntry d (ks.get i) (ks.get i) = none
    rw [completePairs_self] at h
    rw [corrEntry, completePairs_self]
    rw [pearson, if_pos (by rw [h]; ring)]

/-- Witness for C7: on two rows with ages 50 and 60 the `Age` column has
nonzero squared deviation, and the 1×1 correlation matrix over `[Age]`
has 1.0 on its diagonal. -/
theorem corr_symmetric_diag_witness :
    ssxx (completePairs (varAgeRows.map (col NumericKey.age))
        (varAgeRows.map (col NumericKey.age))) ≠ 0 ∧
    corrMatrix varAgeRows [NumericKey.age] ⟨0, Nat.one_pos⟩ ⟨0, Nat.one_pos⟩ =
      some 1 := by
  have h : ssxx (completePairs (varAgeRows.map (col NumericKey.age))
      (varAgeRows.map (col NumericKey.age))) ≠ 0 := by
    have hc : completePairs (varAgeRows.map (col NumericKey.age))
        (varAgeRows.map (col NumericKey.age)) = [(50, 50), (60, 60)] := by
      simp [completePairs, varAgeRows, maleDiabetes, col]
    rw [hc]
    norm_num [ssxx, meanFst]
  exact ⟨h, corr_symmetric_diag.2.1 varAgeRows [NumericKey.age] ⟨0, Nat.one_pos⟩ h⟩

end Healthcare
